import Mathlib

/-!
Shallow embedding of the lazyollama TUI core (src/app.rs, src/handlers.rs,
src/registry_api.rs) together with theorems settling the specification's
claims about filtering, selection, navigation, event handling and the
registry scraping post-processing.

Rust strings are modelled as `String` where only equality and append matter,
and as `List Char` (plus explicit UTF-8 byte arithmetic) where the code
indexes into the string by byte position. Fallible operations (Rust panics
such as `String::insert` off a char boundary, or `unreachable!`) are
modelled with `Option`.
-/

namespace LazyOllama

/-! ### String primitives mirroring the Rust standard library -/

/-- Lexicographic comparison of char lists by code point; for valid UTF-8 this
agrees with Rust's byte-lexicographic `Ord` on `String` (used by `Vec::sort`). -/
def charListLe : List Char → List Char → Bool
  | [], _ => true
  | _ :: _, [] => false
  | a :: as, b :: bs =>
    if a.toNat < b.toNat then true
    else if b.toNat < a.toNat then false
    else charListLe as bs

/-- Rust `String` ordering (`a <= b`), via the code-point order on chars. -/
def strLe (a b : String) : Bool := charListLe a.toList b.toList

/-- Boolean test that `pat` occurs at the start of `hay` (chars). -/
def startsWithChars : List Char → List Char → Bool
  | [], _ => true
  | _ :: _, [] => false
  | p :: ps, h :: hs => p = h && startsWithChars ps hs

/-- Rust `str::contains(pat)`: `pat` occurs as a contiguous substring of `hay`.
Byte-level substring search on valid UTF-8 coincides with char-level search. -/
def containsSub (pat hay : List Char) : Bool :=
  match hay with
  | [] => pat.isEmpty
  | _ :: hs => startsWithChars pat hay || containsSub pat hs

/-- Rust `str::trim`: strip whitespace from both ends. -/
def trimChars (l : List Char) : List Char :=
  ((l.dropWhile Char.isWhitespace).reverse.dropWhile Char.isWhitespace).reverse

/-- Chars strictly after the first ':' of the list, or `none` when there is no
':' (Rust `full_text.find(':')` followed by slicing `[pos + 1 ..]`). -/
def afterFirstColon : List Char → Option (List Char)
  | [] => none
  | c :: rest => if c = ':' then some rest else afterFirstColon rest

/-- Rust `str::split('/')` on the char level: maximal runs between slashes,
with leading/trailing empty pieces kept (`"" → [""]`). -/
def splitOnSlash : List Char → List (List Char)
  | [] => [[]]
  | c :: rest =>
    if c = '/' then [] :: splitOnSlash rest
    else
      match splitOnSlash rest with
      | [] => [[c]]
      | p :: ps => (c :: p) :: ps

/-- Rust `String::len`: total number of UTF-8 bytes. -/
def utf8Length (l : List Char) : Nat := (l.map Char.utf8Size).sum

/-- Rust `String::insert(idx, c)` with `idx` a byte index: `none` models the
panic when `idx` is past the end or not on a char boundary. -/
def insertAtByteIdx (l : List Char) (idx : Nat) (c : Char) : Option (List Char) :=
  match l, idx with
  | l, 0 => some (c :: l)
  | [], _ => none
  | d :: l, idx =>
    if idx < d.utf8Size then none
    else (insertAtByteIdx l (idx - d.utf8Size) c).map (d :: ·)

/-- Rust `String::remove(idx)` with `idx` a byte index: removes the char whose
encoding starts at `idx`; `none` models the panic when `idx` is at or past the
end or not on a char boundary. -/
def removeAtByteIdx (l : List Char) (idx : Nat) : Option (List Char) :=
  match l, idx with
  | [], _ => none
  | _ :: l, 0 => some l
  | d :: l, idx =>
    if idx < d.utf8Size then none
    else (removeAtByteIdx l (idx - d.utf8Size)).map (d :: ·)

/-- Lowercasing of a Rust string, per char (`str::to_lowercase`). -/
def lowerChars (l : List Char) : List Char := l.map Char.toLower

/-! ### Data model (src/ollama_api.rs, src/app.rs) -/

/-- Embeds `ModelInfo` from src/ollama_api.rs: one record of the local inventory. -/
structure ModelInfo where
  name : String
  modified_at : String
  size : Nat
  digest : String
deriving DecidableEq, Repr

/-- Embeds `ModelExtraDetails` from src/ollama_api.rs. -/
structure ModelExtraDetails where
  format : Option String
  family : Option String
  families : Option (List String)
  parameter_size : Option String
  quantization_level : Option String
  parent_model : Option String
deriving DecidableEq, Repr

/-- Embeds `ShowModelResponse` from src/ollama_api.rs: the cached detail record. -/
structure ShowModelResponse where
  license : Option String
  modelfile : Option String
  parameters : Option String
  template : Option String
  details : Option ModelExtraDetails
deriving DecidableEq, Repr

/-- Embeds `AppMode` from src/app.rs. -/
inductive AppMode where
  | Normal
  | Filter
  | ConfirmDelete
  | InstallSelectModel
  | InstallSelectModelFilter
  | InstallSelectTag
  | InstallConfirm
  | Installing
  | RunningOllama
  | Help
deriving DecidableEq, Repr

/-- The observable part of ratatui's `ListState`: the selected index. -/
structure ListState where
  selected : Option Nat
deriving DecidableEq, Repr

/-- Embeds `ListState::default()`. -/
def ListState.default : ListState := ⟨none⟩

/-- Embeds `ListState::select`. -/
def ListState.select (_ : ListState) (i : Option Nat) : ListState := ⟨i⟩

/-- Embeds `AppState` from src/app.rs. Filter buffers are `List Char` so that the
byte-indexed cursor arithmetic of the Rust code can be modelled exactly. -/
structure AppState where
  models : List ModelInfo
  filtered_models : List ModelInfo
  list_state : ListState
  selected_model_details : Option ShowModelResponse
  status_message : Option String
  current_mode : AppMode
  should_quit : Bool
  is_fetching_details : Bool
  filter_input : List Char
  is_filtered : Bool
  filter_cursor_pos : Nat
  registry_models : List String
  filtered_registry_models : List String
  registry_tags : List String
  registry_model_list_state : ListState
  registry_tag_list_state : ListState
  selected_registry_model : Option String
  selected_registry_tag : Option String
  is_fetching_registry : Bool
  install_error : Option String
  install_status : Option String
  previous_mode : Option AppMode
  registry_filter_input : List Char
  is_registry_filtered : Bool
  registry_filter_cursor_pos : Nat
deriving DecidableEq, Repr

/-- Embeds `AppState::new()` from src/app.rs. -/
def AppState.new : AppState where
  models := []
  filtered_models := []
  list_state := ListState.default
  selected_model_details := none
  status_message := some "Loading models..."
  current_mode := .Normal
  should_quit := false
  is_fetching_details := false
  filter_input := []
  is_filtered := false
  filter_cursor_pos := 0
  registry_models := []
  filtered_registry_models := []
  registry_tags := []
  registry_model_list_state := ListState.default
  registry_tag_list_state := ListState.default
  selected_registry_model := none
  selected_registry_tag := none
  is_fetching_registry := false
  install_error := none
  install_status := none
  previous_mode := none
  registry_filter_input := []
  is_registry_filtered := false
  registry_filter_cursor_pos := 0

/-! ### AppState methods (src/app.rs) -/

/-- Embeds `AppState::get_current_models`. -/
def AppState.get_current_models (s : AppState) : List ModelInfo :=
  if s.is_filtered then s.filtered_models else s.models

/-- Embeds `AppState::apply_filter` (src/app.rs lines 102-125). -/
def AppState.apply_filter (s : AppState) : AppState :=
  let s1 :=
    if s.filter_input.isEmpty then
      { s with filtered_models := [], is_filtered := false }
    else
      let filter_lower := lowerChars s.filter_input
      { s with
          filtered_models := s.models.filter
            (fun m => containsSub filter_lower (lowerChars m.name.toList)),
          is_filtered := true }
  if s1.get_current_models.isEmpty then
    { s1 with list_state := s1.list_state.select none,
              selected_model_details := none }
  else
    { s1 with list_state := s1.list_state.select (some 0),
              selected_model_details := none,
              is_fetching_details := false }

/-- Embeds `AppState::clear_filter` (src/app.rs lines 128-142). -/
def AppState.clear_filter (s : AppState) : AppState :=
  let s1 := { s with filter_input := [], filter_cursor_pos := 0,
                     is_filtered := false, filtered_models := [] }
  if s1.models.isEmpty then
    { s1 with list_state := s1.list_state.select none }
  else
    { s1 with list_state := s1.list_state.select (some 0),
              selected_model_details := none,
              is_fetching_details := false }

/-- Embeds `AppState::filter_input_char` (src/app.rs lines 145-149); `none` models the
`String::insert` panic at a byte index off a char boundary. -/
def AppState.filter_input_char (s : AppState) (c : Char) : Option AppState :=
  (insertAtByteIdx s.filter_input s.filter_cursor_pos c).map fun buf =>
    AppState.apply_filter
      { s with filter_input := buf, filter_cursor_pos := s.filter_cursor_pos + 1 }

/-- Embeds `AppState::filter_input_backspace` (src/app.rs lines 152-158). -/
def AppState.filter_input_backspace (s : AppState) : Option AppState :=
  if s.filter_cursor_pos > 0 then
    (removeAtByteIdx s.filter_input (s.filter_cursor_pos - 1)).map fun buf =>
      AppState.apply_filter
        { s with filter_cursor_pos := s.filter_cursor_pos - 1, filter_input := buf }
  else some s

/-- Embeds `AppState::filter_cursor_left` (src/app.rs lines 160-164). -/
def AppState.filter_cursor_left (s : AppState) : AppState :=
  if s.filter_cursor_pos > 0 then
    { s with filter_cursor_pos := s.filter_cursor_pos - 1 }
  else s

/-- Embeds `AppState::filter_cursor_right` (src/app.rs lines 166-170); the bound is
the byte length of the buffer, exactly as in the source. -/
def AppState.filter_cursor_right (s : AppState) : AppState :=
  if s.filter_cursor_pos < utf8Length s.filter_input then
    { s with filter_cursor_pos := s.filter_cursor_pos + 1 }
  else s

/-- Embeds `AppState::select_and_prepare_fetch` (src/app.rs lines 173-189). -/
def AppState.select_and_prepare_fetch (s : AppState) (index : Option Nat) : AppState :=
  let current := s.get_current_models
  if current.isEmpty then
    { s with list_state := s.list_state.select none,
             selected_model_details := none,
             is_fetching_details := false }
  else
    let valid_index := min (index.getD 0) (current.length - 1)
    if s.list_state.selected ≠ some valid_index ∨ s.selected_model_details = none then
      { s with list_state := s.list_state.select (some valid_index),
               selected_model_details := none,
               status_message := some "Fetching details...",
               is_fetching_details := false }
    else s

/-- Embeds `AppState::next_model` (src/app.rs lines 191-204). -/
def AppState.next_model (s : AppState) : AppState :=
  let current := s.get_current_models
  let i :=
    match s.list_state.selected with
    | some i => if i ≥ current.length - 1 then 0 else i + 1
    | none => 0
  s.select_and_prepare_fetch (some i)

/-- Embeds `AppState::previous_model` (src/app.rs lines 206-219). -/
def AppState.previous_model (s : AppState) : AppState :=
  let current := s.get_current_models
  let i :=
    match s.list_state.selected with
    | some i => if i = 0 then current.length - 1 else i - 1
    | none => 0
  s.select_and_prepare_fetch (some i)

/-- Embeds `AppState::get_selected_model_name` (src/app.rs lines 221-227). -/
def AppState.get_selected_model_name (s : AppState) : Option String :=
  (s.list_state.selected.bind (fun i => s.get_current_models[i]?)).map (·.name)

/-- Embeds `AppState::get_current_registry_models` (src/app.rs lines 230-236). -/
def AppState.get_current_registry_models (s : AppState) : List String :=
  if s.is_registry_filtered then s.filtered_registry_models else s.registry_models

/-- Embeds `AppState::apply_registry_filter` (src/app.rs lines 238-258). -/
def AppState.apply_registry_filter (s : AppState) : AppState :=
  let s1 :=
    if s.registry_filter_input.isEmpty then
      { s with filtered_registry_models := [], is_registry_filtered := false }
    else
      let filter_lower := lowerChars s.registry_filter_input
      { s with
          filtered_registry_models := s.registry_models.filter
            (fun m => containsSub filter_lower (lowerChars m.toList)),
          is_registry_filtered := true }
  if s1.get_current_registry_models.isEmpty then
    { s1 with registry_model_list_state := s1.registry_model_list_state.select none }
  else
    { s1 with registry_model_list_state := s1.registry_model_list_state.select (some 0) }

/-- Embeds `AppState::clear_registry_filter` (src/app.rs lines 260-271). -/
def AppState.clear_registry_filter (s : AppState) : AppState :=
  let s1 := { s with registry_filter_input := [], registry_filter_cursor_pos := 0,
                     is_registry_filtered := false, filtered_registry_models := [] }
  if s1.registry_models.isEmpty then
    { s1 with registry_model_list_state := s1.registry_model_list_state.select none }
  else
    { s1 with registry_model_list_state := s1.registry_model_list_state.select (some 0) }

/-- Embeds `AppState::registry_filter_input_char` (src/app.rs lines 273-277). -/
def AppState.registry_filter_input_char (s : AppState) (c : Char) : Option AppState :=
  (insertAtByteIdx s.registry_filter_input s.registry_filter_cursor_pos c).map fun buf =>
    AppState.apply_registry_filter
      { s with registry_filter_input := buf,
               registry_filter_cursor_pos := s.registry_filter_cursor_pos + 1 }

/-- Embeds `AppState::registry_filter_input_backspace` (src/app.rs lines 279-285). -/
def AppState.registry_filter_input_backspace (s : AppState) : Option AppState :=
  if s.registry_filter_cursor_pos > 0 then
    (removeAtByteIdx s.registry_filter_input (s.registry_filter_cursor_pos - 1)).map fun buf =>
      AppState.apply_registry_filter
        { s with registry_filter_cursor_pos := s.registry_filter_cursor_pos - 1,
                 registry_filter_input := buf }
  else some s

/-- Embeds `AppState::registry_filter_cursor_left` (src/app.rs lines 287-291). -/
def AppState.registry_filter_cursor_left (s : AppState) : AppState :=
  if s.registry_filter_cursor_pos > 0 then
    { s with registry_filter_cursor_pos := s.registry_filter_cursor_pos - 1 }
  else s

/-- Embeds `AppState::registry_filter_cursor_right` (src/app.rs lines 293-297). -/
def AppState.registry_filter_cursor_right (s : AppState) : AppState :=
  if s.registry_filter_cursor_pos < utf8Length s.registry_filter_input then
    { s with registry_filter_cursor_pos := s.registry_filter_cursor_pos + 1 }
  else s

/-! ### Events (src/events.rs) and the async event handler (src/handlers.rs) -/

/-- Embeds `AppEvent` from src/events.rs; error payloads carry the error's rendered
display string, which is all the handlers use of them. -/
inductive AppEvent where
  | ModelDetailsFetched (result : Except String ShowModelResponse)
  | RegistryModelsFetched (result : Except String (List String))
  | RegistryTagsFetched (result : Except String (List String))
  | ModelPullCompleted (result : Except String Unit)
  | LocalModelsRefreshed (result : Except String (List ModelInfo))
  | OllamaRunCompleted (result : Except String Unit)

/-- Embeds `handle_app_event` from src/handlers.rs lines 329-436. Statement order and
the placement of every assignment follow the source; in particular the
`install_error = None` at the end of the successful registry-tags branch runs
after, and overwrites, the empty-tags error assignment, as in the source. -/
def handle_app_event (event : AppEvent) (app : AppState) : AppState :=
  match event with
  | .ModelDetailsFetched result =>
    let app := { app with is_fetching_details := false }
    match result with
    | .ok details =>
      { app with selected_model_details := some details, status_message := none }
    | .error e =>
      { app with selected_model_details := none,
                 status_message := some ("Error fetching details: " ++ e) }
  | .RegistryModelsFetched result =>
    let app := { app with is_fetching_registry := false }
    match result with
    | .ok models =>
      let app := { app with registry_models := models }
      let app :=
        if app.is_registry_filtered then
          app.apply_registry_filter
        else if ¬ app.registry_models.isEmpty then
          { app with registry_model_list_state :=
              app.registry_model_list_state.select (some 0) }
        else
          { app with registry_model_list_state :=
              app.registry_model_list_state.select none }
      { app with install_error := none }
    | .error e =>
      { app with install_error := some ("Failed to fetch models: " ++ e),
                 current_mode := .Normal }
  | .RegistryTagsFetched result =>
    let app := { app with is_fetching_registry := false }
    match result with
    | .ok tags =>
      let app := { app with registry_tags := tags }
      let app :=
        if ¬ app.registry_tags.isEmpty then
          { app with registry_tag_list_state :=
              app.registry_tag_list_state.select (some 0) }
        else
          { app with registry_tag_list_state := app.registry_tag_list_state.select none,
                     install_error := some "No tags found for this model.",
                     current_mode := .InstallSelectModel }
      { app with install_error := none }
    | .error e =>
      { app with install_error := some ("Failed to fetch tags: " ++ e),
                 current_mode := .InstallSelectModel }
  | .ModelPullCompleted result =>
    let app := { app with install_status := none }
    let app :=
      match result with
      | .ok _ =>
        { app with status_message := some "Model pull successful! Refreshing list..." }
      | .error e =>
        { app with install_error := some ("Model pull/delete failed: " ++ e),
                   current_mode := .Normal }
    { app with selected_registry_model := none, selected_registry_tag := none }
  | .LocalModelsRefreshed result =>
    let app :=
      match result with
      | .ok models =>
        let old_selection_index := app.list_state.selected
        let app := { app with models := models }
        let app := if app.is_filtered then app.apply_filter else app
        let current_models := app.get_current_models
        let new_selection :=
          if current_models.isEmpty then none
          else some (min (old_selection_index.getD 0) (current_models.length - 1))
        let app := app.select_and_prepare_fetch new_selection
        if app.status_message = some "Model pull successful! Refreshing list..." then
          { app with status_message := none }
        else app
      | .error e =>
        if app.install_error = none then
          { app with status_message := some ("Error refreshing models: " ++ e) }
        else app
    { app with current_mode := .Normal, install_status := none }
  | .OllamaRunCompleted _ =>
    { app with current_mode := .Normal }

/-! ### Key events and the key handler (src/handlers.rs lines 16-326) -/

/-- The crossterm key codes the handler distinguishes; `Other` stands for any
code that every match in the source sends to its catch-all arm. -/
inductive KeyCode where
  | Char (c : Char)
  | Down
  | Up
  | Left
  | Right
  | Enter
  | Esc
  | Backspace
  | Other
deriving DecidableEq, Repr

/-- Crossterm key event kinds. -/
inductive KeyEventKind where
  | Press
  | Repeat
  | Release
deriving DecidableEq, Repr

/-- A crossterm key event: code, control-modifier bit and kind. -/
structure KeyEvent where
  code : KeyCode
  ctrl : Bool
  kind : KeyEventKind
deriving DecidableEq, Repr

/-- Background tasks spawned by the key handler (`tokio::spawn` of the
functions in src/tasks.rs), recorded instead of executed. -/
inductive SpawnReq where
  | fetch_registry_models
  | fetch_registry_tags (model : String)
  | delete_model (name : String)
  | pull_model (model : String) (tag : String)
  | run_ollama (name : String)
deriving DecidableEq, Repr

/-- The `Char('j') | Down` arm of `InstallSelectModel` (handlers.rs 162-171). -/
def install_select_model_down (app : AppState) : AppState :=
  let len := app.get_current_registry_models.length
  if len > 0 then
    let i :=
      match app.registry_model_list_state.selected with
      | some i => (i + 1) % len
      | none => 0
    { app with registry_model_list_state := app.registry_model_list_state.select (some i) }
  else app

/-- The `Char('k') | Up` arm of `InstallSelectModel` (handlers.rs 172-181). -/
def install_select_model_up (app : AppState) : AppState :=
  let len := app.get_current_registry_models.length
  if len > 0 then
    let i :=
      match app.registry_model_list_state.selected with
      | some i => (i + len - 1) % len
      | none => len - 1
    { app with registry_model_list_state := app.registry_model_list_state.select (some i) }
  else app

/-- The `Enter` arm of `InstallSelectModel` (handlers.rs 182-199). -/
def install_select_model_enter (app : AppState) : AppState × List SpawnReq :=
  match app.registry_model_list_state.selected with
  | some selected_index =>
    match app.get_current_registry_models[selected_index]? with
    | some model_name =>
      ({ app with selected_registry_model := some model_name,
                  current_mode := .InstallSelectTag,
                  is_fetching_registry := true,
                  install_error := none,
                  registry_tags := [],
                  registry_tag_list_state := app.registry_tag_list_state.select none },
       [.fetch_registry_tags model_name])
    | none => (app, [])
  | none => (app, [])

/-- The `Char('q') | Esc` arm of `InstallSelectModel` (handlers.rs 200-205). -/
def install_select_model_cancel (app : AppState) : AppState :=
  AppState.clear_registry_filter
    { app with current_mode := .Normal, install_error := none,
               is_fetching_registry := false }

/-- The `Char('j') | Down` arm of `InstallSelectTag` (handlers.rs 209-218). -/
def install_select_tag_down (app : AppState) : AppState :=
  let len := app.registry_tags.length
  if len > 0 then
    let i :=
      match app.registry_tag_list_state.selected with
      | some i => (i + 1) % len
      | none => 0
    { app with registry_tag_list_state := app.registry_tag_list_state.select (some i) }
  else app

/-- The `Char('k') | Up` arm of `InstallSelectTag` (handlers.rs 219-228). -/
def install_select_tag_up (app : AppState) : AppState :=
  let len := app.registry_tags.length
  if len > 0 then
    let i :=
      match app.registry_tag_list_state.selected with
      | some i => (i + len - 1) % len
      | none => len - 1
    { app with registry_tag_list_state := app.registry_tag_list_state.select (some i) }
  else app

/-- The `Char('q') | Esc` arm of `InstallSelectTag` (handlers.rs 238-244). -/
def install_select_tag_cancel (app : AppState) : AppState :=
  { app with current_mode := .InstallSelectModel,
             selected_registry_model := none,
             registry_tags := [],
             install_error := none,
             is_fetching_registry := false }

/-- The `Char('n') | Char('N') | Esc` arm of `InstallConfirm`
(handlers.rs 266-270). -/
def install_confirm_no (app : AppState) : AppState :=
  { app with current_mode := .InstallSelectTag,
             selected_registry_tag := none,
             install_error := none }

/-- The `Esc` arm of `ConfirmDelete` together with `Char('n') | Char('N')`
(handlers.rs 142-145). -/
def confirm_delete_no (app : AppState) : AppState :=
  { app with current_mode := .Normal, status_message := none }

/-- Embeds `handle_key_event` from src/handlers.rs lines 16-326, as a pure function
from a key event and a state to the new state, the quit flag of the `Ok`
result, and the list of spawned background tasks. `none` models a panic: the
`unreachable!()` of the `RunningOllama` arm and the byte-index string panics
reachable through the filter-editing arms. -/
def handle_key_event (key : KeyEvent) (app : AppState) :
    Option (AppState × Bool × List SpawnReq) :=
  if key.kind = .Press ∨ key.kind = .Repeat then
    let globalRes : Option AppState :=
      if app.current_mode ≠ .RunningOllama ∧ app.current_mode ≠ .Help ∧
         app.current_mode ≠ .Filter ∧ app.current_mode ≠ .InstallSelectModelFilter then
        match key.code with
        | .Char c =>
          if c = 'h' ∨ c = '?' then
            some { app with previous_mode := some app.current_mode,
                            current_mode := .Help,
                            status_message := none }
          else none
        | _ => none
      else none
    match globalRes with
    | some app2 => some (app2, false, [])
    | none =>
      match app.current_mode with
      | .Normal =>
        match key.code with
        | .Char c =>
          if c = 'q' then some (app, true, [])
          else if c = 'j' then some (app.next_model, false, [])
          else if c = 'k' then some (app.previous_model, false, [])
          else if c = '/' then
            some ({ app with current_mode := .Filter, filter_input := [],
                             filter_cursor_pos := 0, status_message := none },
                  false, [])
          else if c = 'c' ∧ key.ctrl then
            some ((if app.is_filtered then app.clear_filter else app), false, [])
          else if c = 'd' then
            some ((if app.list_state.selected.isSome then
                     { app with current_mode := .ConfirmDelete, status_message := none }
                   else app), false, [])
          else if c = 'i' then
            some ({ app with current_mode := .InstallSelectModel,
                             is_fetching_registry := true,
                             install_error := none,
                             registry_models := [],
                             registry_model_list_state :=
                               app.registry_model_list_state.select none },
                  false, [.fetch_registry_models])
          else some (app, false, [])
        | .Down => some (app.next_model, false, [])
        | .Up => some (app.previous_model, false, [])
        | .Enter =>
          match app.get_selected_model_name with
          | some name =>
            some ({ app with current_mode := .RunningOllama, status_message := none },
                  false, [.run_ollama name])
          | none => some (app, false, [])
        | _ => some (app, false, [])
      | .Filter =>
        match key.code with
        | .Char c =>
          if c = 'c' ∧ key.ctrl then
            some (AppState.apply_filter
                    { app with filter_input := [], filter_cursor_pos := 0 },
                  false, [])
          else (app.filter_input_char c).map (fun a => (a, false, []))
        | .Backspace => app.filter_input_backspace.map (fun a => (a, false, []))
        | .Left => some (app.filter_cursor_left, false, [])
        | .Right => some (app.filter_cursor_right, false, [])
        | .Enter =>
          some ({ app with current_mode := .Normal,
                           status_message :=
                             if app.is_filtered then
                               some ("Filter: '" ++ String.mk app.filter_input ++ "' ("
                                     ++ toString app.get_current_models.length
                                     ++ " models)")
                             else none },
                false, [])
        | .Esc =>
          some ({ app.clear_filter with current_mode := .Normal,
                                        status_message := some "Filter cleared" },
                false, [])
        | _ => some (app, false, [])
      | .ConfirmDelete =>
        match key.code with
        | .Char c =>
          if c = 'y' ∨ c = 'Y' then
            match app.get_selected_model_name with
            | some name =>
              some ({ app with status_message := some ("Deleting " ++ name ++ "..."),
                               current_mode := .Normal },
                    false, [.delete_model name])
            | none => some ({ app with current_mode := .Normal }, false, [])
          else if c = 'n' ∨ c = 'N' then some (confirm_delete_no app, false, [])
          else some (app, false, [])
        | .Esc => some (confirm_delete_no app, false, [])
        | _ => some (app, false, [])
      | .InstallSelectModel =>
        match key.code with
        | .Char c =>
          if c = '/' then
            some ({ app with current_mode := .InstallSelectModelFilter,
                             registry_filter_input := [],
                             registry_filter_cursor_pos := 0,
                             install_error := none },
                  false, [])
          else if c = 'c' ∧ key.ctrl then
            some ((if app.is_registry_filtered then app.clear_registry_filter else app),
                  false, [])
          else if c = 'j' then some (install_select_model_down app, false, [])
          else if c = 'k' then some (install_select_model_up app, false, [])
          else if c = 'q' then some (install_select_model_cancel app, false, [])
          else some (app, false, [])
        | .Down => some (install_select_model_down app, false, [])
        | .Up => some (install_select_model_up app, false, [])
        | .Enter =>
          let r := install_select_model_enter app
          some (r.1, false, r.2)
        | .Esc => some (install_select_model_cancel app, false, [])
        | _ => some (app, false, [])
      | .InstallSelectTag =>
        match key.code with
        | .Char c =>
          if c = 'j' then some (install_select_tag_down app, false, [])
          else if c = 'k' then some (install_select_tag_up app, false, [])
          else if c = 'q' then some (install_select_tag_cancel app, false, [])
          else some (app, false, [])
        | .Down => some (install_select_tag_down app, false, [])
        | .Up => some (install_select_tag_up app, false, [])
        | .Enter =>
          match app.registry_tag_list_state.selected with
          | some selected_index =>
            match app.registry_tags[selected_index]? with
            | some tag_name =>
              some ({ app with selected_registry_tag := some tag_name,
                               current_mode := .InstallConfirm,
                               install_error := none },
                    false, [])
            | none => some (app, false, [])
          | none => some (app, false, [])
        | .Esc => some (install_select_tag_cancel app, false, [])
        | _ => some (app, false, [])
      | .InstallConfirm =>
        match key.code with
        | .Char c =>
          if c = 'y' ∨ c = 'Y' then
            match app.selected_registry_model, app.selected_registry_tag with
            | some model, some tag =>
              some ({ app with current_mode := .Installing,
                               install_status :=
                                 some ("Starting pull for " ++ model ++ ":" ++ tag ++ "..."),
                               install_error := none },
                    false, [.pull_model model tag])
            | _, _ =>
              some ({ app with install_error := some "Model or tag not selected.",
                               current_mode := .InstallSelectTag },
                    false, [])
          else if c = 'n' ∨ c = 'N' then some (install_confirm_no app, false, [])
          else some (app, false, [])
        | .Esc => some (install_confirm_no app, false, [])
        | _ => some (app, false, [])
      | .Installing => some (app, false, [])
      | .RunningOllama => none
      | .InstallSelectModelFilter =>
        match key.code with
        | .Char c =>
          if c = 'c' ∧ key.ctrl then
            some (AppState.apply_registry_filter
                    { app with registry_filter_input := [],
                               registry_filter_cursor_pos := 0 },
                  false, [])
          else (app.registry_filter_input_char c).map (fun a => (a, false, []))
        | .Backspace => app.registry_filter_input_backspace.map (fun a => (a, false, []))
        | .Left => some (app.registry_filter_cursor_left, false, [])
        | .Right => some (app.registry_filter_cursor_right, false, [])
        | .Enter =>
          some ({ app with current_mode := .InstallSelectModel,
                           install_error :=
                             if app.is_registry_filtered then
                               some ("Filter: '" ++ String.mk app.registry_filter_input
                                     ++ "' ("
                                     ++ toString app.get_current_registry_models.length
                                     ++ " models)")
                             else none },
                false, [])
        | .Esc =>
          some ({ app.clear_registry_filter with
                    current_mode := .InstallSelectModel,
                    install_error := some "Filter cleared" },
                false, [])
        | _ => some (app, false, [])
      | .Help =>
        match key.code with
        | .Char c =>
          if c = 'h' ∨ c = '?' ∨ c = 'q' then
            some ({ app with current_mode := app.previous_mode.getD .Normal,
                             previous_mode := none,
                             status_message := none },
                  false, [])
          else some (app, false, [])
        | .Esc =>
          some ({ app with current_mode := app.previous_mode.getD .Normal,
                           previous_mode := none,
                           status_message := none },
                false, [])
        | _ => some (app, false, [])
  else some (app, false, [])

/-! ### Registry client post-processing (src/registry_api.rs)

The network fetch and HTML parsing are outside the embedding; the inputs are
the raw pieces the scraper pulls from the page: the `href` attribute of each
matched link for `fetch_registry_models`, and the collected text of each
matched tag element for `fetch_registry_tags`. Everything the source does
with those pieces is embedded. -/

/-- Rust `Vec::sort` on strings: ascending, stable; since equal strings are
identical values, a sorted permutation is the unique possible output, here
produced by insertion sort over the byte order `strLe`. -/
def sort_strings (l : List String) : List String :=
  l.insertionSort (fun a b => strLe a b = true)

/-- Rust `iter().position(pred)`: index of the first element satisfying the
predicate. -/
def position_of (p : String → Bool) : List String → Option Nat
  | [] => none
  | a :: l => if p a then some 0 else (position_of p l).map (· + 1)

/-- One iteration of the href loop of `fetch_registry_models`
(registry_api.rs 26-39): keep the middle component of an href shaped like
`/library/modelname`, skipping duplicates. -/
def extract_model_names_step (models : List String) (href : String) : List String :=
  match splitOnSlash href.toList with
  | [_, p1, p2] =>
    if p1 = "library".toList ∧ ¬ p2.isEmpty then
      let model_name := String.mk p2
      if model_name ∈ models then models else models ++ [model_name]
    else models
  | _ => models

/-- The href-extraction loop of `fetch_registry_models`
(registry_api.rs 25-39). -/
def extract_model_names (hrefs : List String) : List String :=
  hrefs.foldl extract_model_names_step []

/-- Embeds `fetch_registry_models` after the page parse (registry_api.rs 25-48):
error on an empty extraction, otherwise the sorted names. -/
def fetch_registry_models_result (hrefs : List String) : Except String (List String) :=
  let models := extract_model_names hrefs
  if models.isEmpty then
    .error "Could not find or parse model names from registry page."
  else
    .ok (sort_strings models)

/-- One iteration of the tag loop of `fetch_registry_tags`
(registry_api.rs 65-75): trim the element text, keep what follows the first
':' when present, and skip empties and duplicates. -/
def extract_tags_step (tags : List String) (text : String) : List String :=
  let full_text := trimChars text.toList
  let tag_text :=
    match afterFirstColon full_text with
    | some rest => String.mk rest
    | none => String.mk full_text
  if ¬ tag_text = "" ∧ tag_text ∉ tags then tags ++ [tag_text] else tags

/-- The tag-extraction loop of `fetch_registry_tags` (registry_api.rs 64-75). -/
def extract_tags (texts : List String) : List String :=
  texts.foldl extract_tags_step []

/-- Embeds `tags.retain(|tag| tag != model_name)` (registry_api.rs 85). -/
def retained_tags (model_name : String) (tags : List String) : List String :=
  tags.filter (fun tag => ¬ tag = model_name)

/-- Push a "latest" tag when absent (registry_api.rs 88-90). -/
def with_latest (tags : List String) : List String :=
  if "latest" ∈ tags then tags else tags ++ ["latest"]

/-- Move the "latest" tag to the front when it is not already there
(registry_api.rs 96-102): `remove` it at its position and `insert` it at 0. -/
def latest_to_front (tags : List String) : List String :=
  match position_of (fun t => t = "latest") tags with
  | some pos => if pos > 0 then "latest" :: tags.eraseIdx pos else tags
  | none => tags

/-- Embeds `fetch_registry_tags` after the page parse (registry_api.rs 64-107):
error on an empty extraction; otherwise drop tags equal to the model name,
ensure a "latest" tag exists, sort, and move "latest" to the front. -/
def fetch_registry_tags_result (model_name : String) (texts : List String) :
    Except String (List String) :=
  let tags := extract_tags texts
  if tags.isEmpty then
    .error ("Could not find/parse tags for model '" ++ model_name
            ++ "'. (Selector might be outdated or model has no tags)")
  else
    .ok (latest_to_front (sort_strings (with_latest (retained_tags model_name tags))))

/-! ### Filter-editing operation sequences -/

/-- The filter-text operations reachable in `Filter` mode: insert a char at
the cursor, backspace at the cursor, clear the filter, re-apply the filter,
and the two cursor moves. -/
inductive FilterOp where
  | insert (c : Char)
  | backspace
  | clear
  | apply
  | left
  | right
deriving DecidableEq, Repr

/-- One filter-editing operation on the local inventory; `none` models a
panic inside the byte-indexed string edit. -/
def filter_op_step : FilterOp → AppState → Option AppState
  | .insert c, s => s.filter_input_char c
  | .backspace, s => s.filter_input_backspace
  | .clear, s => some s.clear_filter
  | .apply, s => some s.apply_filter
  | .left, s => some s.filter_cursor_left
  | .right, s => some s.filter_cursor_right

/-- A sequence of filter-editing operations, halting on the first panic. -/
def run_filter_ops : List FilterOp → AppState → Option AppState
  | [], s => some s
  | op :: ops, s =>
    match filter_op_step op s with
    | none => none
    | some s1 => run_filter_ops ops s1

/-- The filter/selection invariant of the spec: the selection is `none` iff
the currently visible model sequence is empty, and otherwise it is a valid
index into the visible sequence. -/
def selection_invariant (s : AppState) : Bool :=
  match s.list_state.selected with
  | none => s.get_current_models.isEmpty
  | some i => i < s.get_current_models.length

/-- Inventory record "llama3" of the spec's filter scenario. -/
def llama3Info : ModelInfo := ⟨"llama3", "", 0, ""⟩

/-- Inventory record "mistral" of the spec's filter scenario. -/
def mistralInfo : ModelInfo := ⟨"mistral", "", 0, ""⟩

/-- Inventory record "llama2" of the spec's filter scenario. -/
def llama2Info : ModelInfo := ⟨"llama2", "", 0, ""⟩

/-- The spec's filter scenario: inventory ["llama3", "mistral", "llama2"]
with filter text "llama" about to be applied. -/
def filterScenarioState : AppState :=
  { AppState.new with models := [llama3Info, mistralInfo, llama2Info],
                      filter_input := "llama".toList,
                      list_state := ⟨some 0⟩ }

/-- A state waiting in `InstallSelectTag` mode for the registry tag fetch of
"llama3" to complete. -/
def tagsWaitState : AppState :=
  { AppState.new with current_mode := .InstallSelectTag,
                      selected_registry_model := some "llama3",
                      is_fetching_registry := true }

/-- Inventory record "modelA" of the stale-fetch scenario. -/
def modelAInfo : ModelInfo := ⟨"modelA", "", 0, ""⟩

/-- Inventory record "modelB" of the stale-fetch scenario. -/
def modelBInfo : ModelInfo := ⟨"modelB", "", 0, ""⟩

/-- The detail record the daemon returns for "modelA". -/
def detailsOfA : ShowModelResponse :=
  ⟨some "licenseA", some "modelfileA", none, none, none⟩

/-- A state with models A and B, A selected, and a detail fetch in flight
for A. -/
def staleFetchState : AppState :=
  { AppState.new with models := [modelAInfo, modelBInfo],
                      list_state := ⟨some 0⟩,
                      is_fetching_details := true,
                      status_message := none }

/-- A state in `Installing` mode while `ollama pull llama3:latest` runs. -/
def installingState : AppState :=
  { AppState.new with current_mode := .Installing,
                      install_status := some "Starting pull for llama3:latest...",
                      selected_registry_model := some "llama3",
                      selected_registry_tag := some "latest" }

/-- A state currently displaying an install error. -/
def pullFailedState : AppState :=
  { AppState.new with install_error := some "Model pull/delete failed: exit status 1",
                      status_message := none }

/-- The selection-reset stage shared by `apply_filter`: whatever state `t` it
starts from, it leaves the selection `none` exactly when the visible sequence
is empty and `some 0` otherwise. -/
theorem selection_invariant_reset_stage (t : AppState) :
    selection_invariant
      (if t.get_current_models.isEmpty then
        { t with list_state := t.list_state.select none,
                 selected_model_details := none }
      else
        { t with list_state := t.list_state.select (some 0),
                 selected_model_details := none,
                 is_fetching_details := false }) = true := by
  by_cases h : t.get_current_models.isEmpty
  · rw [if_pos h]
    simp only [selection_invariant, ListState.select, AppState.get_current_models] at h ⊢
    exact h
  · rw [if_neg h]
    simp only [selection_invariant, ListState.select, AppState.get_current_models,
      List.isEmpty_iff] at h ⊢
    simpa [Nat.lt_iff_add_one_le] using List.length_pos.mpr h

/-- The operation `apply_filter` re-establishes the selection invariant from any state. -/
theorem selection_invariant_apply_filter (s : AppState) :
    selection_invariant s.apply_filter = true := by
  simp only [AppState.apply_filter]
  exact selection_invariant_reset_stage _

/-- The selection-reset stage of `clear_filter`, which keys off the full
inventory; sound because `t.is_filtered` is false there. -/
theorem selection_invariant_clear_stage (t : AppState) (hf : t.is_filtered = false) :
    selection_invariant
      (if t.models.isEmpty then
        { t with list_state := t.list_state.select none }
      else
        { t with list_state := t.list_state.select (some 0),
                 selected_model_details := none,
                 is_fetching_details := false }) = true := by
  by_cases h : t.models.isEmpty
  · rw [if_pos h]
    simp only [selection_invariant, ListState.select, AppState.get_current_models, hf] at h ⊢
    simpa using h
  · rw [if_neg h]
    simp only [selection_invariant, ListState.select, AppState.get_current_models, hf,
      List.isEmpty_iff] at h ⊢
    simpa [Nat.lt_iff_add_one_le] using List.length_pos.mpr h

/-- The operation `clear_filter` re-establishes the selection invariant from any state. -/
theorem selection_invariant_clear_filter (s : AppState) :
    selection_invariant s.clear_filter = true := by
  simp only [AppState.clear_filter]
  exact selection_invariant_clear_stage
    { s with filter_input := [], filter_cursor_pos := 0,
             is_filtered := false, filtered_models := [] } rfl

/-- Every single filter-editing operation that completes preserves the
selection invariant. -/
theorem selection_invariant_filter_op_step (op : FilterOp) (s s1 : AppState)
    (h : selection_invariant s = true) (hstep : filter_op_step op s = some s1) :
    selection_invariant s1 = true := by
  cases op with
  | insert c =>
    simp only [filter_op_step, AppState.filter_input_char, Option.map_eq_some'] at hstep
    obtain ⟨buf, -, rfl⟩ := hstep
    exact selection_invariant_apply_filter _
  | backspace =>
    simp only [filter_op_step, AppState.filter_input_backspace] at hstep
    split at hstep
    · simp only [Option.map_eq_some'] at hstep
      obtain ⟨buf, -, rfl⟩ := hstep
      exact selection_invariant_apply_filter _
    · cases hstep; exact h
  | clear =>
    cases hstep; exact selection_invariant_clear_filter _
  | apply =>
    cases hstep; exact selection_invariant_apply_filter _
  | left =>
    simp only [filter_op_step, AppState.filter_cursor_left] at hstep
    split at hstep <;> cases hstep <;>
      simpa [selection_invariant, AppState.get_current_models] using h
  | right =>
    simp only [filter_op_step, AppState.filter_cursor_right] at hstep
    split at hstep <;> cases hstep <;>
      simpa [selection_invariant, AppState.get_current_models] using h

/-- C1: for every sequence of filter-text operations on the local inventory
(insert character, backspace, clear filter, apply filter — and also the two
cursor moves), if the starting state satisfies the filter/selection invariant
and the sequence completes, the resulting local selection is `None` iff the
visible model sequence is empty, and otherwise a valid index into it. -/
theorem filter_ops_preserve_selection_invariant (s : AppState)
    (h : selection_invariant s = true) (ops : List FilterOp) (s' : AppState)
    (hrun : run_filter_ops ops s = some s') : selection_invariant s' = true := by
  induction ops generalizing s with
  | nil => cases hrun; exact h
  | cons op ops ih =>
    simp only [run_filter_ops] at hrun
    cases hstep : filter_op_step op s with
    | none => rw [hstep] at hrun; cases hrun
    | some s1 =>
      rw [hstep] at hrun
      exact ih s1 (selection_invariant_filter_op_step op s s1 h hstep) hrun

/-- Concrete instance of C1: the initial state satisfies the invariant and a
short run (insert, clear) keeps it. -/
theorem filter_ops_preserve_selection_invariant_witness :
    selection_invariant AppState.new = true ∧
    selection_invariant (AppState.clear_filter (AppState.apply_filter AppState.new)) = true :=
  ⟨by decide,
   filter_ops_preserve_selection_invariant AppState.new (by decide)
     [.apply, .clear] _ rfl⟩

/-- C7 is false of the code: from an empty buffer, inserting the two-byte char
'é' and then inserting 'a' panics, because the cursor counts characters but is
used as a byte index (`String::insert` at byte 1, inside 'é'). -/
theorem filter_input_multibyte_insert_panics :
    run_filter_ops [.insert 'é', .insert 'a'] AppState.new = none := by decide

/-! ### Functional correctness of apply_filter (C2) -/

/-- C2: applying the filter leaves the full inventory visible with the
filtered flag off when the filter text is empty; otherwise it turns the flag
on and the visible sequence is exactly the case-insensitive substring matches
in inventory order; afterwards an empty visible sequence clears the selection,
and a non-empty one selects index 0, clears the cached detail record and
clears the detail-fetch in-flight flag. -/
theorem apply_filter_correct (s : AppState) :
    (s.filter_input = [] →
       s.apply_filter.is_filtered = false ∧
       s.apply_filter.get_current_models = s.models) ∧
    (s.filter_input ≠ [] →
       s.apply_filter.is_filtered = true ∧
       s.apply_filter.get_current_models =
         s.models.filter
           (fun m => containsSub (lowerChars s.filter_input) (lowerChars m.name.toList))) ∧
    (s.apply_filter.get_current_models = [] →
       s.apply_filter.list_state.selected = none) ∧
    (s.apply_filter.get_current_models ≠ [] →
       s.apply_filter.list_state.selected = some 0 ∧
       s.apply_filter.selected_model_details = none ∧
       s.apply_filter.is_fetching_details = false) := by
  simp only [AppState.apply_filter]
  split <;> split <;>
    simp_all [AppState.get_current_models, ListState.select, List.isEmpty_iff]

/-- Concrete instance of C2, the spec's scenario: inventory
["llama3", "mistral", "llama2"] with filter text "llama" gives visible
["llama3", "llama2"] in original order with selection 0. -/
theorem apply_filter_correct_witness :
    filterScenarioState.filter_input ≠ [] ∧
    filterScenarioState.apply_filter.get_current_models ≠ [] ∧
    (filterScenarioState.apply_filter.is_filtered = true ∧
     filterScenarioState.apply_filter.get_current_models = [llama3Info, llama2Info]) ∧
    filterScenarioState.apply_filter.list_state.selected = some 0 := by
  refine ⟨by decide, by decide, ⟨?_, by decide⟩, ?_⟩
  · exact ((apply_filter_correct filterScenarioState).2.1 (by decide)).1
  · exact ((apply_filter_correct filterScenarioState).2.2.2 (by decide)).1

/-! ### Event-handler behavior (C3, C4, C5, C8) -/

/-- C3 evaluated at its failing input: a successful-but-empty registry tags
event does fall back to `InstallSelectModel`, but the "No tags found for this
model." message is immediately overwritten by the unconditional
`install_error = None` at the end of the success branch (handlers.rs 377), so
the install-error field ends up `none`, against the claim; the failure event
behaves as claimed. -/
theorem registry_tags_empty_loses_error :
    (handle_app_event (.RegistryTagsFetched (.ok [])) tagsWaitState).current_mode =
        .InstallSelectModel ∧
    (handle_app_event (.RegistryTagsFetched (.ok [])) tagsWaitState).install_error = none ∧
    (handle_app_event (.RegistryTagsFetched (.error "HTTP 500")) tagsWaitState).current_mode =
        .InstallSelectModel ∧
    (handle_app_event (.RegistryTagsFetched (.error "HTTP 500")) tagsWaitState).install_error =
        some ("Failed to fetch tags: " ++ "HTTP 500") := by decide

/-- C4 evaluated at its failing input: with a detail fetch in flight for
selected model A, moving the selection to B and then processing A's completion
stores A's detail record as the displayed details while B is still selected —
the completion is applied unconditionally (handlers.rs 331-343). -/
theorem stale_fetch_attributes_details_to_wrong_model :
    (staleFetchState.select_and_prepare_fetch (some 1)).list_state.selected = some 1 ∧
    (handle_app_event (.ModelDetailsFetched (.ok detailsOfA))
        (staleFetchState.select_and_prepare_fetch (some 1))).list_state.selected = some 1 ∧
    (handle_app_event (.ModelDetailsFetched (.ok detailsOfA))
        (staleFetchState.select_and_prepare_fetch (some 1))).selected_model_details =
      some detailsOfA ∧
    (staleFetchState.select_and_prepare_fetch (some 1)).models[1]? = some modelBInfo ∧
    modelBInfo ≠ modelAInfo := by decide

/-- C5 is false as stated: processing a successful pull-completion event in
`Installing` mode leaves the mode `Installing` (handlers.rs 385-398 changes
the mode only on failure; `Normal` is only restored by the later refresh
event). -/
theorem installing_pull_ok_mode_not_normal :
    (handle_app_event (.ModelPullCompleted (.ok ())) installingState).current_mode ≠
      AppMode.Normal := by decide

/-- C5 as amended: in `Installing` mode every key event other than a
press/repeat of the global help keys ('h' or '?') leaves the state unchanged,
spawns nothing and does not quit; a pull-completion failure event moves the
mode to `Normal`, while a successful pull-completion leaves the mode
unchanged (still `Installing`). -/
theorem installing_mode_behavior (s : AppState) (h : s.current_mode = .Installing)
    (key : KeyEvent)
    (hk : key.code ≠ .Char 'h' ∧ key.code ≠ .Char '?') :
    handle_key_event key s = some (s, false, []) ∧
    (∀ e, (handle_app_event (.ModelPullCompleted (.error e)) s).current_mode = .Normal) ∧
    (handle_app_event (.ModelPullCompleted (.ok ())) s).current_mode = s.current_mode := by
  refine ⟨?_, ?_, ?_⟩
  · obtain ⟨code, ctrl, kind⟩ := key
    cases code <;> cases kind <;> simp_all [handle_key_event]
  · intro e; simp [handle_app_event, h]
  · simp [handle_app_event]

/-- Concrete instance of the amended C5 at the 'q' key, which quits in
`Normal` mode but is ignored while installing. -/
theorem installing_mode_behavior_witness :
    installingState.current_mode = .Installing ∧
    ((KeyEvent.mk (.Char 'q') false .Press).code ≠ .Char 'h' ∧
     (KeyEvent.mk (.Char 'q') false .Press).code ≠ .Char '?') ∧
    handle_key_event ⟨.Char 'q', false, .Press⟩ installingState =
      some (installingState, false, []) ∧
    (handle_app_event (.ModelPullCompleted (.error "exit status 1"))
        installingState).current_mode = .Normal :=
  ⟨rfl, ⟨by decide, by decide⟩,
   (installing_mode_behavior installingState rfl ⟨.Char 'q', false, .Press⟩
      ⟨by decide, by decide⟩).1,
   (installing_mode_behavior installingState rfl ⟨.Char 'q', false, .Press⟩
      ⟨by decide, by decide⟩).2.1 "exit status 1"⟩

/-- C8: when a local-models refresh failure event is processed, the refresh
error message is written to the status text only when no install-error is
displayed; an existing install-error is left in place and the status text
untouched. -/
theorem refresh_error_defers_to_install_error (s : AppState) (e : String) :
    (s.install_error = none →
       (handle_app_event (.LocalModelsRefreshed (.error e)) s).status_message =
         some ("Error refreshing models: " ++ e) ∧
       (handle_app_event (.LocalModelsRefreshed (.error e)) s).install_error = none) ∧
    (s.install_error ≠ none →
       (handle_app_event (.LocalModelsRefreshed (.error e)) s).install_error =
         s.install_error ∧
       (handle_app_event (.LocalModelsRefreshed (.error e)) s).status_message =
         s.status_message) := by
  constructor <;> intro h <;> simp [handle_app_event, h]

/-- Concrete instances of C8: a refresh failure writes the status text on a
fresh state, and leaves an existing install-error and status untouched. -/
theorem refresh_error_defers_to_install_error_witness :
    (AppState.new.install_error = none ∧
     (handle_app_event (.LocalModelsRefreshed (.error "connection refused"))
         AppState.new).status_message =
       some ("Error refreshing models: " ++ "connection refused")) ∧
    (pullFailedState.install_error ≠ none ∧
     (handle_app_event (.LocalModelsRefreshed (.error "connection refused"))
         pullFailedState).install_error = pullFailedState.install_error ∧
     (handle_app_event (.LocalModelsRefreshed (.error "connection refused"))
         pullFailedState).status_message = pullFailedState.status_message) :=
  ⟨⟨rfl, ((refresh_error_defers_to_install_error AppState.new "connection refused").1 rfl).1⟩,
   ⟨by decide, (refresh_error_defers_to_install_error pullFailedState
      "connection refused").2 (by decide)⟩⟩

/-! ### Wrap-around navigation (C6) -/

/-- The operation `select_and_prepare_fetch` never changes which models are visible. -/
theorem select_and_prepare_fetch_visible (s : AppState) (idx : Option Nat) :
    (s.select_and_prepare_fetch idx).get_current_models = s.get_current_models := by
  simp only [AppState.select_and_prepare_fetch]
  split
  · simp [AppState.get_current_models]
  · split <;> simp [AppState.get_current_models]

/-- With no visible models, `select_and_prepare_fetch` clears the selection. -/
theorem select_and_prepare_fetch_empty (s : AppState) (idx : Option Nat)
    (h : s.get_current_models = []) :
    (s.select_and_prepare_fetch idx).list_state.selected = none := by
  simp only [AppState.select_and_prepare_fetch]
  rw [if_pos (by simp [h, List.isEmpty_iff])]
  simp [ListState.select]

/-- With a visible sequence and a valid target index, `select_and_prepare_fetch`
lands the selection on that index, whether or not it refetches. -/
theorem select_and_prepare_fetch_selected (s : AppState) (i : Nat)
    (hi : i < s.get_current_models.length) :
    (s.select_and_prepare_fetch (some i)).list_state.selected = some i := by
  have hne : s.get_current_models ≠ [] := by
    intro h; rw [h] at hi; exact absurd hi (by simp)
  simp only [AppState.select_and_prepare_fetch]
  rw [if_neg (by simp [List.isEmpty_iff, hne])]
  have hmin : min (Option.getD (some i) 0) (s.get_current_models.length - 1) = i := by
    simp [Option.getD]
    omega
  rw [hmin]
  split
  · simp [ListState.select]
  · rename_i hcond
    push_neg at hcond
    exact hcond.1.symm ▸ rfl

/-- The operation `next_model` keeps the visible sequence. -/
theorem next_model_visible (s : AppState) :
    s.next_model.get_current_models = s.get_current_models :=
  select_and_prepare_fetch_visible _ _

/-- The operation `previous_model` keeps the visible sequence. -/
theorem previous_model_visible (s : AppState) :
    s.previous_model.get_current_models = s.get_current_models :=
  select_and_prepare_fetch_visible _ _

/-- One `next_model` step from a valid selection advances by one, modulo the
visible length. -/
theorem next_model_selected (s : AppState) (i : Nat)
    (hsel : s.list_state.selected = some i) (hi : i < s.get_current_models.length) :
    s.next_model.list_state.selected =
      some ((i + 1) % s.get_current_models.length) := by
  simp only [AppState.next_model, hsel]
  have : (if i ≥ s.get_current_models.length - 1 then 0 else i + 1) =
      (i + 1) % s.get_current_models.length := by
    split <;> rename_i hcase
    · have : i = s.get_current_models.length - 1 := by omega
      subst this
      have : s.get_current_models.length - 1 + 1 = s.get_current_models.length := by omega
      rw [this, Nat.mod_self]
    · rw [Nat.mod_eq_of_lt (by omega)]
  rw [this]
  exact select_and_prepare_fetch_selected s _ (Nat.mod_lt _ (by omega))

/-- One `previous_model` step from a valid selection retreats by one, modulo
the visible length (written as adding `length - 1`). -/
theorem previous_model_selected (s : AppState) (i : Nat)
    (hsel : s.list_state.selected = some i) (hi : i < s.get_current_models.length) :
    s.previous_model.list_state.selected =
      some ((i + (s.get_current_models.length - 1)) % s.get_current_models.length) := by
  simp only [AppState.previous_model, hsel]
  have : (if i = 0 then s.get_current_models.length - 1 else i - 1) =
      (i + (s.get_current_models.length - 1)) % s.get_current_models.length := by
    split <;> rename_i hcase
    · subst hcase
      rw [Nat.zero_add, Nat.mod_eq_of_lt (by omega)]
    · have : i + (s.get_current_models.length - 1) =
          (i - 1) + s.get_current_models.length := by omega
      rw [this, Nat.add_mod_right, Nat.mod_eq_of_lt (by omega)]
  rw [this]
  exact select_and_prepare_fetch_selected s _ (Nat.mod_lt _ (by omega))

/-- Iterating `next_model` k times from a valid selection lands on
`(i + k) mod length` and keeps the visible sequence. -/
theorem next_model_iterate (s : AppState) (i : Nat)
    (hsel : s.list_state.selected = some i) (hi : i < s.get_current_models.length)
    (k : Nat) :
    (AppState.next_model^[k] s).get_current_models = s.get_current_models ∧
    (AppState.next_model^[k] s).list_state.selected =
      some ((i + k) % s.get_current_models.length) := by
  induction k with
  | zero => simpa [hsel] using (Nat.mod_eq_of_lt hi).symm
  | succ k ih =>
    rw [Function.iterate_succ_apply']
    obtain ⟨ihv, ihs⟩ := ih
    constructor
    · rw [next_model_visible, ihv]
    · have hlt : (i + k) % s.get_current_models.length < s.get_current_models.length :=
        Nat.mod_lt _ (by omega)
      have := next_model_selected (AppState.next_model^[k] s) _ ihs (by rw [ihv]; exact hlt)
      rw [this, ihv, Nat.mod_add_mod, Nat.add_assoc]

/-- Iterating `previous_model` k times from a valid selection lands on
`(i + k * (length - 1)) mod length` and keeps the visible sequence. -/
theorem previous_model_iterate (s : AppState) (i : Nat)
    (hsel : s.list_state.selected = some i) (hi : i < s.get_current_models.length)
    (k : Nat) :
    (AppState.previous_model^[k] s).get_current_models = s.get_current_models ∧
    (AppState.previous_model^[k] s).list_state.selected =
      some ((i + k * (s.get_current_models.length - 1)) % s.get_current_models.length) := by
  induction k with
  | zero => simpa [hsel] using (Nat.mod_eq_of_lt hi).symm
  | succ k ih =>
    rw [Function.iterate_succ_apply']
    obtain ⟨ihv, ihs⟩ := ih
    constructor
    · rw [previous_model_visible, ihv]
    · have := previous_model_selected (AppState.previous_model^[k] s) _ ihs
        (by rw [ihv]; exact Nat.mod_lt _ (by omega))
      rw [this, ihv, Nat.mod_add_mod]
      congr 1
      ring_nf

/-- C6: over a visible sequence of length N > 0, N `next_model` steps (and
likewise N `previous_model` steps) return the selection to its starting index;
from a cleared selection one step in either direction selects index 0; with no
visible models navigation leaves the selection cleared. -/
theorem navigation_wraps (s : AppState) :
    (∀ i, s.list_state.selected = some i → i < s.get_current_models.length →
       (AppState.next_model^[s.get_current_models.length] s).list_state.selected = some i ∧
       (AppState.previous_model^[s.get_current_models.length] s).list_state.selected = some i) ∧
    (s.get_current_models ≠ [] → s.list_state.selected = none →
       s.next_model.list_state.selected = some 0 ∧
       s.previous_model.list_state.selected = some 0) ∧
    (s.get_current_models = [] →
       s.next_model.list_state.selected = none ∧
       s.previous_model.list_state.selected = none) := by
  refine ⟨?_, ?_, ?_⟩
  · intro i hsel hi
    constructor
    · rw [(next_model_iterate s i hsel hi _).2, Nat.add_mod_right, Nat.mod_eq_of_lt hi]
    · rw [(previous_model_iterate s i hsel hi _).2, Nat.add_mul_mod_self_left,
        Nat.mod_eq_of_lt hi]
  · intro hne hsel
    have hlen : 0 < s.get_current_models.length := List.length_pos.mpr hne
    constructor
    · simp only [AppState.next_model, hsel]
      exact select_and_prepare_fetch_selected s 0 hlen
    · simp only [AppState.previous_model, hsel]
      exact select_and_prepare_fetch_selected s 0 hlen
  · intro hempty
    exact ⟨select_and_prepare_fetch_empty s _ hempty,
           select_and_prepare_fetch_empty s _ hempty⟩

/-- Concrete instance of C6 on the three-model inventory: three steps in
either direction return to index 0, and with no models navigation stays
cleared. -/
theorem navigation_wraps_witness :
    filterScenarioState.list_state.selected = some 0 ∧
    0 < filterScenarioState.get_current_models.length ∧
    (AppState.next_model^[filterScenarioState.get_current_models.length]
        filterScenarioState).list_state.selected = some 0 ∧
    (AppState.previous_model^[filterScenarioState.get_current_models.length]
        filterScenarioState).list_state.selected = some 0 ∧
    AppState.new.get_current_models = [] ∧
    AppState.new.next_model.list_state.selected = none :=
  ⟨rfl, by decide,
   ((navigation_wraps filterScenarioState).1 0 rfl (by decide)).1,
   ((navigation_wraps filterScenarioState).1 0 rfl (by decide)).2,
   rfl,
   ((navigation_wraps AppState.new).2.2 rfl).1⟩

/-! ### Registry post-processing: order facts and shape lemmas (C9, C10) -/

/-- The code-point order on char lists is total. -/
theorem charListLe_total : ∀ a b : List Char, charListLe a b = true ∨ charListLe b a = true
  | [], _ => Or.inl rfl
  | _ :: _, [] => Or.inr rfl
  | a :: as, b :: bs => by
    rcases Nat.lt_trichotomy a.toNat b.toNat with h | h | h
    · left; simp [charListLe, h]
    · rcases charListLe_total as bs with hr | hr
      · left; simp [charListLe, h, Nat.lt_irrefl, hr]
      · right; simp [charListLe, h, Nat.lt_irrefl, hr]
    · right; simp [charListLe, h]

/-- The code-point order on char lists is transitive. -/
theorem charListLe_trans : ∀ a b c : List Char, charListLe a b = true →
    charListLe b c = true → charListLe a c = true
  | [], _, _, _, _ => rfl
  | _ :: _, [], _, hab, _ => by simp [charListLe] at hab
  | _ :: _, _ :: _, [], _, hbc => by simp [charListLe] at hbc
  | a :: as, b :: bs, c :: cs, hab, hbc => by
    simp only [charListLe] at hab hbc ⊢
    rcases Nat.lt_trichotomy a.toNat b.toNat with h1 | h1 | h1
    · rcases Nat.lt_trichotomy b.toNat c.toNat with h2 | h2 | h2
      · rw [if_pos (by omega)]
      · rw [if_pos (by omega)]
      · rw [if_neg (by omega), if_pos h2] at hbc
        exact Bool.noConfusion hbc
    · rw [if_neg (by omega), if_neg (by omega)] at hab
      rcases Nat.lt_trichotomy b.toNat c.toNat with h2 | h2 | h2
      · rw [if_pos (by omega)]
      · rw [if_neg (by omega), if_neg (by omega)] at hbc
        rw [if_neg (by omega), if_neg (by omega)]
        exact charListLe_trans as bs cs hab hbc
      · rw [if_neg (by omega), if_pos h2] at hbc
        exact Bool.noConfusion hbc
    · rw [if_neg (by omega), if_pos h1] at hab
      exact Bool.noConfusion hab

instance : IsTotal String (fun a b => strLe a b = true) :=
  ⟨fun a b => charListLe_total a.toList b.toList⟩

instance : IsTrans String (fun a b => strLe a b = true) :=
  ⟨fun a b c => charListLe_trans a.toList b.toList c.toList⟩

/-- The function `sort_strings` permutes its input. -/
theorem sort_strings_perm (l : List String) : (sort_strings l).Perm l :=
  List.perm_insertionSort _ l

/-- The function `sort_strings` sorts ascending in the byte order. -/
theorem sort_strings_sorted (l : List String) :
    (sort_strings l).Sorted (fun a b => strLe a b = true) :=
  List.sorted_insertionSort _ l

/-- When `position_of` finds nothing, no element satisfies the predicate. -/
theorem position_of_eq_none_not_mem (a0 : String) :
    ∀ l : List String, position_of (fun t => t = a0) l = none → a0 ∉ l
  | [], _, hmem => by cases hmem
  | a :: t, h, hmem => by
    by_cases ha : a = a0
    · simp [position_of, ha] at h
    · rcases List.mem_cons.mp hmem with h0 | h0
      · exact ha h0.symm
      · rcases hpos : position_of (fun t => t = a0) t with _ | p
        · exact position_of_eq_none_not_mem a0 t hpos h0
        · simp [position_of, ha, hpos] at h

/-- When `position_of` answers 0, the list starts with a match. -/
theorem position_of_zero_head (a0 : String) (l : List String)
    (h : position_of (fun t => t = a0) l = some 0) : l.head? = some a0 := by
  cases l with
  | nil => cases h
  | cons a t =>
    by_cases ha : a = a0
    · simp [ha]
    · rcases hpos : position_of (fun t => t = a0) t with _ | p <;>
        simp [position_of, ha, hpos] at h

/-- Removing the element `position_of` found and putting the searched-for
value in front permutes the list. -/
theorem perm_cons_eraseIdx_of_position_of (a0 : String) :
    ∀ (l : List String) (pos : Nat),
      position_of (fun t => t = a0) l = some pos → l.Perm (a0 :: l.eraseIdx pos)
  | [], _, h => by cases h
  | a :: t, pos, h => by
    by_cases ha : a = a0
    · have hz : pos = 0 := by simp [position_of, ha] at h; omega
      subst hz
      rw [List.eraseIdx_cons_zero, ha]
    · rcases hpos : position_of (fun t => t = a0) t with _ | j
      · simp [position_of, ha, hpos] at h
      · have hj : pos = j + 1 := by simp [position_of, ha, hpos] at h; omega
        subst hj
        have ih := perm_cons_eraseIdx_of_position_of a0 t j hpos
        rw [List.eraseIdx_cons_succ]
        exact (ih.cons a).trans (List.Perm.swap a0 a (t.eraseIdx j))

/-- The function `latest_to_front` permutes its input. -/
theorem latest_to_front_perm (l : List String) : (latest_to_front l).Perm l := by
  unfold latest_to_front
  cases hpos : position_of (fun t => t = "latest") l with
  | none => exact List.Perm.refl l
  | some pos =>
    by_cases hz : pos > 0
    · simp only [hz, if_true]
      exact (perm_cons_eraseIdx_of_position_of "latest" l pos hpos).symm
    · simp [hz]

/-- When "latest" occurs in the input, `latest_to_front` puts it first. -/
theorem latest_to_front_head (l : List String) (h : "latest" ∈ l) :
    (latest_to_front l).head? = some "latest" := by
  unfold latest_to_front
  cases hpos : position_of (fun t => t = "latest") l with
  | none => exact absurd h (position_of_eq_none_not_mem "latest" l hpos)
  | some pos =>
    by_cases hz : pos > 0
    · simp [hz]
    · have : pos = 0 := by omega
      subst this
      simpa using position_of_zero_head "latest" l hpos

/-- The function `latest_to_front` keeps everything after the head sorted when the input is
sorted. -/
theorem latest_to_front_tail_sorted (l : List String)
    (hs : l.Sorted (fun a b => strLe a b = true)) :
    (latest_to_front l).tail.Sorted (fun a b => strLe a b = true) := by
  have htail : l.tail.Sorted (fun a b => strLe a b = true) := by
    cases l with
    | nil => simp
    | cons a t => exact hs.of_cons
  unfold latest_to_front
  cases hpos : position_of (fun t => t = "latest") l with
  | none => exact htail
  | some pos =>
    by_cases hz : pos > 0
    · simp only [hz, if_true, List.tail_cons]
      exact List.Pairwise.sublist (List.eraseIdx_sublist l pos) hs
    · simp [hz, htail]

/-- One step of the tag-extraction loop keeps the accumulator duplicate-free. -/
theorem extract_tags_step_nodup (tags : List String) (text : String)
    (h : tags.Nodup) : (extract_tags_step tags text).Nodup := by
  simp only [extract_tags_step, String.toList]
  split
  · rename_i hcond
    obtain ⟨-, hnot⟩ := hcond
    exact h.append (List.nodup_singleton _) (by simp [List.disjoint_singleton, hnot])
  · exact h

/-- The tag-extraction loop produces a duplicate-free accumulator. -/
theorem foldl_extract_tags_step_nodup :
    ∀ (texts acc : List String), acc.Nodup →
      (texts.foldl extract_tags_step acc).Nodup
  | [], _, h => h
  | t :: ts, acc, h =>
    foldl_extract_tags_step_nodup ts _ (extract_tags_step_nodup acc t h)

/-- The extracted raw tag list is duplicate-free. -/
theorem extract_tags_nodup (texts : List String) : (extract_tags texts).Nodup :=
  foldl_extract_tags_step_nodup texts [] List.nodup_nil

/-- The model name does not survive the `retain` stage. -/
theorem retained_tags_not_mem (model_name : String) (tags : List String) :
    model_name ∉ retained_tags model_name tags := by
  intro hmem
  have := List.of_mem_filter hmem
  simp at this

/-- The `retain` stage keeps the list duplicate-free. -/
theorem retained_tags_nodup (model_name : String) (tags : List String)
    (h : tags.Nodup) : (retained_tags model_name tags).Nodup :=
  h.filter _

/-- The tag "latest" is present after the push stage. -/
theorem mem_with_latest (tags : List String) : "latest" ∈ with_latest tags := by
  unfold with_latest
  split
  · assumption
  · simp

/-- The push stage keeps the list duplicate-free. -/
theorem with_latest_nodup (tags : List String) (h : tags.Nodup) :
    (with_latest tags).Nodup := by
  unfold with_latest
  split
  · exact h
  · rename_i hmem
    simp [List.nodup_append, h, hmem]

/-- A name other than "latest" absent before the push stage stays absent. -/
theorem with_latest_not_mem (x : String) (tags : List String)
    (hx : x ≠ "latest") (h : x ∉ tags) : x ∉ with_latest tags := by
  unfold with_latest
  split
  · exact h
  · simp [h, hx]

/-- C9: the registry list-models and list-tags operations never succeed with
an empty list — an empty extraction yields the scraping error, and every `ok`
payload is non-empty. -/
theorem registry_success_results_nonempty (hrefs texts : List String) (model : String)
    (l l2 : List String) :
    (extract_model_names hrefs = [] →
       fetch_registry_models_result hrefs =
         .error "Could not find or parse model names from registry page.") ∧
    (fetch_registry_models_result hrefs = .ok l → l ≠ []) ∧
    (extract_tags texts = [] →
       fetch_registry_tags_result model texts =
         .error ("Could not find/parse tags for model '" ++ model
                 ++ "'. (Selector might be outdated or model has no tags)")) ∧
    (fetch_registry_tags_result model texts = .ok l2 → l2 ≠ []) := by
  refine ⟨?_, ?_, ?_, ?_⟩
  · intro h; simp [fetch_registry_models_result, h]
  · intro h
    simp only [fetch_registry_models_result] at h
    split at h
    · cases h
    · rename_i hne
      cases h
      intro hl
      have hperm := sort_strings_perm (extract_model_names hrefs)
      rw [hl] at hperm
      exact hne (by simp [List.isEmpty_iff, hperm.symm.eq_nil])
  · intro h; simp [fetch_registry_tags_result, h]
  · intro h
    simp only [fetch_registry_tags_result] at h
    split at h
    · cases h
    · cases h
      apply List.ne_nil_of_mem
      exact (latest_to_front_perm _).mem_iff.mpr
        ((sort_strings_perm _).mem_iff.mpr (mem_with_latest _))

/-- Concrete instances of C9: one model href yields a one-model success, and
a colon-prefixed tag plus "latest" yield a two-tag success; both non-empty. -/
theorem registry_success_results_nonempty_witness :
    fetch_registry_models_result ["/library/llama3", "/library/llama3/tags"] =
      .ok ["llama3"] ∧
    (["llama3"] : List String) ≠ [] ∧
    fetch_registry_tags_result "llama3" ["llama3:8b", "latest"] = .ok ["latest", "8b"] ∧
    (["latest", "8b"] : List String) ≠ [] :=
  ⟨by rfl,
   (registry_success_results_nonempty ["/library/llama3", "/library/llama3/tags"]
      [] "x" ["llama3"] []).2.1 (by rfl),
   by rfl,
   (registry_success_results_nonempty [] ["llama3:8b", "latest"] "llama3"
      [] ["latest", "8b"]).2.2.2 (by rfl)⟩

/-- C10 is false as stated for a model named "latest": its own name is
filtered out by the `retain` stage but immediately re-added by the ensure-
"latest" stage, so the successful result contains the queried model's name. -/
theorem registry_tags_contains_own_name :
    fetch_registry_tags_result "latest" ["7b", "latest"] = .ok ["latest", "7b"] ∧
    "latest" ∈ (["latest", "7b"] : List String) := ⟨by rfl, by decide⟩

/-- C10 as amended: every successful registry tags result is non-empty,
duplicate-free, starts with "latest", continues in ascending byte order, and
does not contain the queried model's own name unless that name is "latest"
itself (which the code unconditionally re-adds). -/
theorem registry_tags_ok_shape (model : String) (texts l : List String)
    (h : fetch_registry_tags_result model texts = .ok l) :
    l ≠ [] ∧ l.Nodup ∧ (model ∉ l ∨ model = "latest") ∧
    l.head? = some "latest" ∧
    l.tail.Sorted (fun a b => strLe a b = true) := by
  simp only [fetch_registry_tags_result] at h
  split at h
  · cases h
  · cases h
    have hmem2 : "latest" ∈ with_latest (retained_tags model (extract_tags texts)) :=
      mem_with_latest _
    have hmem3 : "latest" ∈ sort_strings (with_latest (retained_tags model (extract_tags texts))) :=
      (sort_strings_perm _).mem_iff.mpr hmem2
    have hnd : (sort_strings (with_latest (retained_tags model (extract_tags texts)))).Nodup :=
      (sort_strings_perm _).nodup_iff.mpr
        (with_latest_nodup _ (retained_tags_nodup model _ (extract_tags_nodup texts)))
    refine ⟨?_, ?_, ?_, ?_, ?_⟩
    · exact List.ne_nil_of_mem ((latest_to_front_perm _).mem_iff.mpr hmem3)
    · exact (latest_to_front_perm _).nodup_iff.mpr hnd
    · by_cases hml : model = "latest"
      · exact Or.inr hml
      · refine Or.inl fun hmem => ?_
        exact with_latest_not_mem model _ hml (retained_tags_not_mem model _)
          ((sort_strings_perm _).mem_iff.mp ((latest_to_front_perm _).mem_iff.mp hmem))
    · exact latest_to_front_head _ hmem3
    · exact latest_to_front_tail_sorted _ (sort_strings_sorted _)

/-- Concrete instance of the amended C10: for model "mistral" and a scraped
"7b" tag the result is ["latest", "7b"] with the claimed shape. -/
theorem registry_tags_ok_shape_witness :
    fetch_registry_tags_result "mistral" ["7b"] = .ok ["latest", "7b"] ∧
    ((["latest", "7b"] : List String) ≠ [] ∧
     (["latest", "7b"] : List String).Nodup ∧
     ("mistral" ∉ (["latest", "7b"] : List String) ∨ "mistral" = "latest") ∧
     (["latest", "7b"] : List String).head? = some "latest" ∧
     (["latest", "7b"] : List String).tail.Sorted (fun a b => strLe a b = true)) :=
  ⟨by rfl, registry_tags_ok_shape "mistral" ["7b"] ["latest", "7b"] (by rfl)⟩

end LazyOllama
